import Mathlib

/-!
Verification development for the transportv1 connection-proxying layer of
the repository: the client side (api/client/proxy/transport/transportv1/client.go)
and the server side (Service.ProxyCluster / Service.ProxySSH) of the
ProxyCluster and ProxySSH RPCs, the demultiplexing dispatchers, and the
channel-backed virtual streams (sshStream on both sides).

Conventions of the embedding:
* byte payloads are lists of naturals;
* trace errors are modelled by the GoError sum; trace.Wrap and the
  trail.FromGRPC / trail.ToGRPC conversions only decorate an error and keep
  its classification, so both are modelled as the identity on GoError;
* calls into external collaborators (the gRPC stream itself, peer lookup,
  net.SplitHostPort, the Dialer, utils.ProxyConn) enter the model as
  environment fields holding the outcome the collaborator produced;
* the channel-based concurrency of the virtual streams is modelled as a
  small-step action system: an action is enabled exactly when the
  corresponding Go channel operation could complete, and a Go select whose
  cases are simultaneously ready corresponds to several enabled actions.
-/

namespace Transportv1

/-- Uninterpreted byte payload of a frame. -/
abbrev Payload := List Nat

/-- Error model for the trace-style errors appearing in the code. -/
inductive GoError where
  | badParameter (msg : String)
  | accessDenied (msg : String)
  | notImplemented (msg : String)
  | notFound (msg : String)
  | connectionProblem (msg : String)
  | ioEOF
  | other (msg : String)
deriving DecidableEq, Repr

/-- Classification predicate matching trace.IsConnectionProblem. -/
def GoError.isConnectionProblem : GoError → Bool
  | .connectionProblem _ => true
  | _ => false

/-- Human-readable rendering of an error, used when one error wraps another. -/
def GoError.describe : GoError → String
  | .badParameter m => m
  | .accessDenied m => m
  | .notImplemented m => m
  | .notFound m => m
  | .connectionProblem m => m
  | .ioEOF => "EOF"
  | .other m => m

/-- Frame message: an uninterpreted byte payload (proxyv1.Frame). -/
structure Frame where
  payload : Payload
deriving DecidableEq, Repr

/-- TargetHost message: the dial target of a host session. -/
structure TargetHost where
  hostPort : String
  cluster : String
deriving DecidableEq, Repr

/-- ClusterDetails message: capability flags advertised by the server. -/
structure ClusterDetails where
  fipsEnabled : Bool
deriving DecidableEq, Repr

/-- Oneof frame variants of a ProxySSHRequest (client to server). -/
inductive ReqFrame where
  | ssh (f : Frame)
  | agent (f : Frame)
deriving DecidableEq, Repr

/-- Oneof frame variants of a ProxySSHResponse (server to client). -/
inductive RespFrame where
  | ssh (f : Frame)
  | agent (f : Frame)
deriving DecidableEq, Repr

/-- ProxySSHRequest message; a nil oneof frame is modelled as none. -/
structure ProxySSHRequestMsg where
  dialTarget : Option TargetHost := none
  frame : Option ReqFrame := none
deriving DecidableEq, Repr

/-- ProxySSHResponse message; a nil oneof frame is modelled as none. -/
structure ProxySSHResponseMsg where
  details : Option ClusterDetails := none
  frame : Option RespFrame := none
deriving DecidableEq, Repr

/-- ProxyClusterRequest message. -/
structure ProxyClusterRequestMsg where
  cluster : String := ""
  frame : Option Frame := none
deriving DecidableEq, Repr

/-- ProxyClusterResponse message. -/
structure ProxyClusterResponseMsg where
  frame : Option Frame := none
deriving DecidableEq, Repr

/-- Network address, as exposed by net.Addr. -/
structure Addr where
  network : String
  addrStr : String
deriving DecidableEq, Repr

/-- Recv of the client-side clusterStream (client.go lines 91 to 102): a
stream receive error is wrapped and returned; a message whose Frame field
is nil is a BadParameter error; otherwise the frame payload is returned. -/
def clientClusterRecv (r : Except GoError ProxyClusterResponseMsg) :
    Except GoError Payload :=
  match r with
  | .error e => .error e
  | .ok resp =>
    match resp.frame with
    | none => .error (.badParameter "received invalid frame")
    | some f => .ok f.payload

/-- Recv of the server-side clusterStream (part_002 lines 150 to 161),
identical in shape to the client side but reading ProxyClusterRequest. -/
def serverClusterRecv (r : Except GoError ProxyClusterRequestMsg) :
    Except GoError Payload :=
  match r with
  | .error e => .error e
  | .ok req =>
    match req.frame with
    | none => .error (.badParameter "received invalid frame")
    | some f => .ok f.payload

/-- Modelled from the spec: streamutils.NewReadWriter (package
api/utils/grpc/stream is not under src) fails exactly when the provided
source is absent, and otherwise returns the wrapped source. Every call in
the files under src passes a freshly constructed non-nil source. -/
def newReadWriter (src : Option α) : Except GoError α :=
  match src with
  | none => .error (.badParameter "parameter rw required")
  | some s => .ok s

/-- Modelled from the spec: the read path of the Stream-backed Connection
(streamutils.Conn, not under src). Per spec sections 4.4, 7 and 8 and the
expectations of TestClient_DialCluster, a read whose underlying source
receive fails returns zero bytes and a classified connection-problem error
(not the raw peer error); a clean end of stream passes through as io.EOF;
a successful receive yields the payload bytes. -/
def connFirstRead (recv : Except GoError Payload) : Nat × Option GoError :=
  match recv with
  | .ok p => (p.length, none)
  | .error GoError.ioEOF => (0, some GoError.ioEOF)
  | .error e => (0, some (GoError.connectionProblem e.describe))

/-- Environment of one Client.DialCluster call: outcomes of the external
collaborator calls it performs, in program order. -/
structure DialClusterEnv where
  openStream : Option GoError
  sendFirst : Option GoError
  peerInfo : Option Addr

/-- Connection value returned by DialCluster (streamutils.NewConn result). -/
structure ClusterConn where
  localAddr : Option Addr
  remoteAddr : Addr
deriving DecidableEq, Repr

/-- Client.DialCluster (client.go lines 62 to 83): open the ProxyCluster
stream, send the first message carrying the cluster name, build the
stream reader/writer over the non-nil clusterStream source, look up the
peer of the stream context, and return the stream-backed connection. -/
def dialCluster (src : Option Addr) (env : DialClusterEnv) :
    Except GoError ClusterConn :=
  match env.openStream with
  | some e => .error e
  | none =>
    match env.sendFirst with
    | some e => .error e
    | none =>
      match newReadWriter (some ()) with
      | .error e => .error e
      | .ok _ =>
        match env.peerInfo with
        | none => .error (.badParameter "unable to retrieve peer information")
        | some p => .ok { localAddr := src, remoteAddr := p }

/-- Abstract authorization capability (services.AccessChecker). -/
structure AccessChecker where
  id : Nat
deriving DecidableEq, Repr

/-- Abstract destination connection returned by the external Dialer. -/
structure DestConn where
  id : Nat
deriving DecidableEq, Repr

/-- Environment of one server Service.ProxySSH invocation: the outcomes of
the external collaborator calls it performs, in program order. The
splitHostPort field is the outcome function of net.SplitHostPort, an
uninterpreted standard-library call; none models a parse error. -/
structure SSHServerEnv where
  peerInfo : Option Addr
  checker : Except GoError AccessChecker
  firstRecv : Except GoError ProxySSHRequestMsg
  splitHostPort : String → Option (String × String)
  dial : Except GoError DestConn
  sendDetails : Option GoError
  proxyConn : Option GoError

/-- Observable events of a server ProxySSH execution, in the order the
handler performs them. -/
inductive SrvEvent where
  | dialHostCalled (host port cluster : String)
  | detailsSent (d : ClusterDetails)
  | proxyStarted
deriving DecidableEq, Repr

/-- Service.ProxySSH (part_002 lines 170 to 267) as an event-trace
function: look up the peer, resolve the access checker, receive the first
frame, validate and split the dial target, build the agent stream
reader/writer over the non-nil agent sshStream, call Dialer.DialHost,
build the ssh stream reader/writer, send the cluster details, and start
proxying. The returned trace lists the externally visible events in
order; the second component is the error the RPC returns (none on clean
completion). -/
def proxySSH (fips : Bool) (env : SSHServerEnv) :
    List SrvEvent × Option GoError :=
  match env.peerInfo with
  | none => ([], some (.badParameter "unable to find peer"))
  | some _ =>
    match env.checker with
    | .error e => ([], some e)
    | .ok _ =>
      match env.firstRecv with
      | .error e => ([], some e)
      | .ok req =>
        match req.dialTarget with
        | none => ([], some (.badParameter "first frame must contain a dial target"))
        | some target =>
          match env.splitHostPort target.hostPort with
          | none => ([], some (.badParameter "dial target contains an invalid hostport"))
          | some (host, port) =>
            match newReadWriter (some ()) with
            | .error e => ([], some e)
            | .ok _ =>
              match env.dial with
              | .error e => ([.dialHostCalled host port target.cluster], some e)
              | .ok _ =>
                match newReadWriter (some ()) with
                | .error e => ([.dialHostCalled host port target.cluster], some e)
                | .ok _ =>
                  match env.sendDetails with
                  | some e =>
                      ([.dialHostCalled host port target.cluster,
                        .detailsSent { fipsEnabled := fips }], some e)
                  | none =>
                      ([.dialHostCalled host port target.cluster,
                        .detailsSent { fipsEnabled := fips },
                        .proxyStarted], env.proxyConn)

/-- Environment of one client Client.DialHost call up to its return: the
outcomes of opening the ProxySSH stream, sending the dial target, and the
single blocking receive of the details response. -/
structure DialHostEnv where
  openStream : Option GoError
  sendTarget : Option GoError
  firstRecv : Except GoError ProxySSHResponseMsg

/-- Connection value returned by DialHost (streamutils.NewConn over the
ssh stream reader/writer, with remote address addr(hostport)). -/
structure HostConn where
  localAddr : Option Addr
  remoteAddr : Addr
deriving DecidableEq, Repr

/-- Client.DialHost up to its return value (client.go lines 111 to 193):
open the ProxySSH stream, send the dial target, block on receiving
exactly one response, build the agent and ssh virtual streams and their
reader/writers, and return the ssh connection together with the details
carried by that single response. The dispatcher the call spawns is
modelled separately by clientDispatch. -/
def dialHost (hostport : String) (src : Option Addr) (env : DialHostEnv) :
    Except GoError (HostConn × Option ClusterDetails) :=
  match env.openStream with
  | some e => .error e
  | none =>
    match env.sendTarget with
    | some e => .error e
    | none =>
      match env.firstRecv with
      | .error e => .error e
      | .ok resp =>
        match newReadWriter (some ()) with
        | .error e => .error e
        | .ok _ =>
          match newReadWriter (some ()) with
          | .error e => .error e
          | .ok _ =>
            .ok ({ localAddr := src,
                   remoteAddr := { network := "tcp", addrStr := hostport } },
                 resp.details)

/-- State accumulated by the server-side dispatcher goroutine of
Service.ProxySSH (part_002 lines 211 to 237): the payload sequences it
has enqueued onto the two virtual stream channels, and whether it has
closed each stream. -/
structure SrvDispatchState where
  sshQ : List Payload
  agentQ : List Payload
  sshClosed : Bool
  agentClosed : Bool
deriving DecidableEq, Repr

/-- Initial server dispatcher state. -/
def srvDispatchInit : SrvDispatchState :=
  { sshQ := [], agentQ := [], sshClosed := false, agentClosed := false }

/-- One iteration body of the server dispatcher on a received request whose
frame oneof is f: an ssh frame goes to the ssh stream channel, an agent
frame to the agent stream channel, and any other frame (modelled as none)
is logged and skipped. -/
def srvStep (s : SrvDispatchState) (f : Option ReqFrame) : SrvDispatchState :=
  match f with
  | some (.ssh fr) => { s with sshQ := s.sshQ ++ [fr.payload] }
  | some (.agent fr) => { s with agentQ := s.agentQ ++ [fr.payload] }
  | none => s

/-- The server dispatcher loop over the sequence of frames received before
the loop observes a receive outcome term: when term is an error the loop
closes both virtual streams and returns; when term is none the loop is
still blocked in the next receive. -/
def srvLoop (s : SrvDispatchState) :
    List (Option ReqFrame) → Option GoError → SrvDispatchState
  | [], none => s
  | [], some _ => { s with agentClosed := true, sshClosed := true }
  | f :: rest, t => srvLoop (srvStep s f) rest t

/-- The full server dispatcher run from the initial state. -/
def serverDispatch (msgs : List (Option ReqFrame)) (term : Option GoError) :
    SrvDispatchState :=
  srvLoop srvDispatchInit msgs term

/-- Payload extractor for ssh-tagged request frames. -/
def reqSshPayload : Option ReqFrame → Option Payload
  | some (.ssh fr) => some fr.payload
  | _ => none

/-- Payload extractor for agent-tagged request frames. -/
def reqAgentPayload : Option ReqFrame → Option Payload
  | some (.agent fr) => some fr.payload
  | _ => none

/-- State accumulated by the client-side dispatcher goroutine of
Client.DialHost (client.go lines 152 to 191): payload sequences enqueued
onto the two virtual stream channels, the contents of each stream error
channel, how many times agent.ServeAgent was launched, the sync.Once
guard state, and the two deferred closes. -/
structure CltDispatchState where
  sshQ : List Payload
  agentQ : List Payload
  sshErrC : Option GoError
  agentErrC : Option GoError
  serveCount : Nat
  onceDone : Bool
  agentRWClosed : Bool
  sshConnClosed : Bool
deriving DecidableEq, Repr

/-- Initial client dispatcher state. -/
def cltDispatchInit : CltDispatchState :=
  { sshQ := [], agentQ := [], sshErrC := none, agentErrC := none,
    serveCount := 0, onceDone := false, agentRWClosed := false,
    sshConnClosed := false }

/-- One iteration body of the client dispatcher on a response whose frame
oneof is f, given whether the caller supplied a keyring: an ssh frame goes
to the ssh stream channel; an agent frame is skipped entirely when no
keyring was supplied, and otherwise first triggers the one-time
agent-serving start and is then enqueued onto the agent stream channel;
any other frame (modelled as none) is skipped. -/
def cltStep (keyring : Bool) (s : CltDispatchState) (f : Option RespFrame) :
    CltDispatchState :=
  match f with
  | some (.ssh fr) => { s with sshQ := s.sshQ ++ [fr.payload] }
  | some (.agent fr) =>
      if keyring then
        if s.onceDone then { s with agentQ := s.agentQ ++ [fr.payload] }
        else { s with onceDone := true, serveCount := s.serveCount + 1,
                      agentQ := s.agentQ ++ [fr.payload] }
      else s
  | none => s

/-- The client dispatcher loop over the responses received before the loop
observes a receive outcome term: on a receive error the loop sends the
error on the ssh stream error channel only, and its deferred calls then
close the agent reader/writer and the user-visible ssh connection. -/
def cltLoop (keyring : Bool) (s : CltDispatchState) :
    List (Option RespFrame) → Option GoError → CltDispatchState
  | [], none => s
  | [], some e =>
      { s with sshErrC := some e, agentRWClosed := true, sshConnClosed := true }
  | f :: rest, t => cltLoop keyring (cltStep keyring s f) rest t

/-- The full client dispatcher run from the initial state. -/
def clientDispatch (keyring : Bool) (msgs : List (Option RespFrame))
    (term : Option GoError) : CltDispatchState :=
  cltLoop keyring cltDispatchInit msgs term

/-- Payload extractor for ssh-tagged response frames. -/
def respSshPayload : Option RespFrame → Option Payload
  | some (.ssh fr) => some fr.payload
  | _ => none

/-- Payload extractor for agent-tagged response frames. -/
def respAgentPayload : Option RespFrame → Option Payload
  | some (.agent fr) => some fr.payload
  | _ => none

/-- Whether a response carries an agent-tagged frame. -/
def isAgentMsg : Option RespFrame → Bool
  | some (.agent _) => true
  | _ => false

/-- Channel state of one client-side virtual stream (sshStream, client.go
lines 210 to 233): the contents of the capacity-10 buffered incoming
channel and of the capacity-1 error channel. -/
structure CltStreamState where
  incomingC : List Payload
  errorC : Option GoError
deriving DecidableEq, Repr

/-- Actions on a client-side virtual stream: the dispatcher enqueueing a
frame, the dispatcher sending the terminal error, and the two branches of
the select inside Recv (client.go lines 226 to 233). A Recv whose two
select cases are both ready may take either branch. -/
inductive CltAct where
  | enqueue (p : Payload)
  | putErr (e : GoError)
  | recvFrame
  | recvErr
deriving DecidableEq, Repr

/-- When an action can complete, per Go channel semantics: a channel send
completes only when buffer space is free (the producer otherwise blocks,
it never drops), and a select branch is ready only when its channel has
something to deliver. -/
def cltActEnabled (s : CltStreamState) : CltAct → Bool
  | .enqueue _ => s.incomingC.length < 10
  | .putErr _ => s.errorC.isNone
  | .recvFrame => !s.incomingC.isEmpty
  | .recvErr => s.errorC.isSome

/-- Effect of an action on the channel state. -/
def cltActApply (s : CltStreamState) : CltAct → CltStreamState
  | .enqueue p => { s with incomingC := s.incomingC ++ [p] }
  | .putErr e => { s with errorC := some e }
  | .recvFrame => { s with incomingC := s.incomingC.tail }
  | .recvErr => { s with errorC := none }

/-- Run a sequence of actions. -/
def cltRun (s : CltStreamState) : List CltAct → CltStreamState
  | [] => s
  | a :: r => cltRun (cltActApply s a) r

/-- A sequence of actions is a valid execution when every action is
enabled in the state it fires from. -/
def cltRunValid (s : CltStreamState) : List CltAct → Bool
  | [] => true
  | a :: r => cltActEnabled s a && cltRunValid (cltActApply s a) r

/-- The frames returned by the Recv calls of an execution, in order. -/
def cltReceived (s : CltStreamState) : List CltAct → List Payload
  | [] => []
  | a :: r =>
      (match a, s.incomingC with
       | CltAct.recvFrame, p :: _ => [p]
       | _, _ => []) ++ cltReceived (cltActApply s a) r

/-- The frames the dispatcher enqueued during an execution, in order. -/
def cltEnqueued : List CltAct → List Payload :=
  List.filterMap fun a =>
    match a with
    | CltAct.enqueue p => some p
    | _ => none

/-- Channel state of one server-side virtual stream (sshStream, part_002
lines 273 to 309): the capacity-10 buffered incoming channel and the done
signal channel. -/
structure SrvStreamState where
  incomingC : List Payload
  done : Bool
deriving DecidableEq, Repr

/-- Close of the server sshStream (part_002 lines 289 to 297): fire the
done signal unless it already fired; always return nil. -/
def sshStreamClose (s : SrvStreamState) : SrvStreamState × Option GoError :=
  if s.done then (s, none) else ({ s with done := true }, none)

/-- Actions on a server-side virtual stream: the dispatcher enqueueing a
frame, a Close call, and the two branches of the select inside Recv
(part_002 lines 302 to 309). A Recv whose two select cases are both ready
may take either branch. -/
inductive SrvAct where
  | enqueue (p : Payload)
  | closeAct
  | recvFrame
  | recvEOF
deriving DecidableEq, Repr

/-- Whether an enqueue-tag action is a Close call. -/
def isCloseAct : SrvAct → Bool
  | .closeAct => true
  | _ => false

/-- When an action can complete, per Go channel semantics: Recv may take
the done branch (returning io.EOF) whenever the done channel is closed,
even while frames remain buffered. -/
def srvActEnabled (s : SrvStreamState) : SrvAct → Bool
  | .enqueue _ => s.incomingC.length < 10
  | .closeAct => true
  | .recvFrame => !s.incomingC.isEmpty
  | .recvEOF => s.done

/-- Effect of an action on the channel state. -/
def srvActApply (s : SrvStreamState) : SrvAct → SrvStreamState
  | .enqueue p => { s with incomingC := s.incomingC ++ [p] }
  | .closeAct => (sshStreamClose s).1
  | .recvFrame => { s with incomingC := s.incomingC.tail }
  | .recvEOF => s

/-- Run a sequence of actions. -/
def srvRun (s : SrvStreamState) : List SrvAct → SrvStreamState
  | [] => s
  | a :: r => srvRun (srvActApply s a) r

/-- A sequence of actions is a valid execution when every action is
enabled in the state it fires from. -/
def srvRunValid (s : SrvStreamState) : List SrvAct → Bool
  | [] => true
  | a :: r => srvActEnabled s a && srvRunValid (srvActApply s a) r

/-- The frames returned by the Recv calls of an execution, in order. -/
def srvReceived (s : SrvStreamState) : List SrvAct → List Payload
  | [] => []
  | a :: r =>
      (match a, s.incomingC with
       | SrvAct.recvFrame, p :: _ => [p]
       | _, _ => []) ++ srvReceived (srvActApply s a) r

/-- How many Close calls of an execution actually fired the done signal
(took the default branch of the select in Close and closed the channel). -/
def closeFires (s : SrvStreamState) : List SrvAct → Nat
  | [] => 0
  | a :: r =>
      (match a with
       | SrvAct.closeAct => if s.done then 0 else 1
       | _ => 0) + closeFires (srvActApply s a) r

/-- A sample outcome function for net.SplitHostPort, splitting exactly the
sample dial target used by the concrete scenarios below. -/
def sampleSplit : String → Option (String × String) := fun s =>
  if s = "node.example.com:3022" then some ("node.example.com", "3022")
  else none

/-- Server environment in which every step of a ProxySSH invocation
succeeds. -/
def envAllOk : SSHServerEnv :=
  { peerInfo := some ⟨"tcp", "10.0.0.1:55555"⟩,
    checker := Except.ok ⟨0⟩,
    firstRecv := Except.ok
      { dialTarget := some ⟨"node.example.com:3022", "root-cluster"⟩ },
    splitHostPort := sampleSplit,
    dial := Except.ok ⟨1⟩,
    sendDetails := none,
    proxyConn := none }

/-- Server environment whose transport context carries no peer. -/
def envNoPeer : SSHServerEnv :=
  { envAllOk with peerInfo := none }

/-- Server environment whose access checker resolution fails. -/
def envAuthFail : SSHServerEnv :=
  { envAllOk with
    checker := Except.error (.accessDenied "client is not authenticated") }

/-- Server environment whose first frame carries no dial target. -/
def envNoTarget : SSHServerEnv :=
  { envAllOk with firstRecv := Except.ok { dialTarget := none } }

/-- Server environment whose dial target hostport does not split into a
host and a port. -/
def envBadHostPort : SSHServerEnv :=
  { envAllOk with
    firstRecv := Except.ok
      { dialTarget := some ⟨"garbage", "root-cluster"⟩ } }

/-- Client DialHost environment whose single initial receive fails. -/
def envRecvFail : DialHostEnv :=
  { openStream := none, sendTarget := none,
    firstRecv := Except.error (.notImplemented "not implemented") }

/-- Client DialCluster environment in which opening the stream and sending
the first message both succeed. -/
def envClusterOk : DialClusterEnv :=
  { openStream := none, sendFirst := none,
    peerInfo := some ⟨"tcp", "127.0.0.1:3080"⟩ }

/-- Payload of the frame pending in the failing C2 scenario: the bytes of
the word hello, matching the echo frame of the repository test. -/
def helloPayload : Payload := [104, 101, 108, 108, 111]

/-- The terminal receive error of the failing C2 scenario: the error the
client stream receive returns when the next message exceeds the
configured receive size (the repository test provokes it with a
1001-byte frame against a 1000-byte limit). -/
def oversizedErr : GoError := .other "received message larger than max"

/-! Helper theorems about the dispatcher loops and virtual stream runs. -/

theorem srvLoop_eq (msgs : List (Option ReqFrame)) :
    ∀ (s : SrvDispatchState) (term : Option GoError),
    srvLoop s msgs term =
      { sshQ := s.sshQ ++ msgs.filterMap reqSshPayload,
        agentQ := s.agentQ ++ msgs.filterMap reqAgentPayload,
        sshClosed := s.sshClosed || term.isSome,
        agentClosed := s.agentClosed || term.isSome } := by
  induction msgs with
  | nil =>
      intro s term
      cases term <;> cases s <;> simp [srvLoop]
  | cons f rest ih =>
      intro s term
      rcases f with _ | fr
      · simp [srvLoop, srvStep, ih, reqSshPayload, reqAgentPayload]
      · cases fr <;> simp [srvLoop, srvStep, ih, reqSshPayload, reqAgentPayload]

theorem cltLoop_eq (keyring : Bool) (msgs : List (Option RespFrame)) :
    ∀ (s : CltDispatchState) (term : Option GoError),
    cltLoop keyring s msgs term =
      { sshQ := s.sshQ ++ msgs.filterMap respSshPayload,
        agentQ := s.agentQ ++
          (if keyring then msgs.filterMap respAgentPayload else []),
        sshErrC := if term.isSome then term else s.sshErrC,
        agentErrC := s.agentErrC,
        serveCount := s.serveCount +
          (if keyring && !s.onceDone && msgs.any isAgentMsg then 1 else 0),
        onceDone := s.onceDone || (keyring && msgs.any isAgentMsg),
        agentRWClosed := s.agentRWClosed || term.isSome,
        sshConnClosed := s.sshConnClosed || term.isSome } := by
  induction msgs with
  | nil =>
      intro s term
      cases term <;> cases s <;> simp [cltLoop]
  | cons f rest ih =>
      intro s term
      rcases f with _ | fr
      · simp [cltLoop, cltStep, ih, isAgentMsg, respSshPayload, respAgentPayload]
      · cases fr with
        | ssh fr =>
            simp [cltLoop, cltStep, ih, isAgentMsg, respSshPayload, respAgentPayload]
        | agent fr =>
            rcases Bool.eq_false_or_eq_true keyring with hk | hk
            case inr =>
              subst hk
              simp [cltLoop, cltStep, ih, isAgentMsg,
                respSshPayload, respAgentPayload]
            case inl =>
              subst hk
              by_cases ho : s.onceDone = true
              · simp [cltLoop, cltStep, ho, ih, isAgentMsg,
                  respSshPayload, respAgentPayload]
              · simp only [Bool.not_eq_true] at ho
                simp [cltLoop, cltStep, ho, ih, isAgentMsg,
                  respSshPayload, respAgentPayload]

theorem clt_fifo (acts : List CltAct) :
    ∀ s : CltStreamState, cltRunValid s acts = true →
    cltReceived s acts ++ (cltRun s acts).incomingC =
      s.incomingC ++ cltEnqueued acts := by
  induction acts with
  | nil => intro s _; simp [cltReceived, cltRun, cltEnqueued]
  | cons a r ih =>
      intro s hv
      rw [cltRunValid, Bool.and_eq_true] at hv
      obtain ⟨he, hv⟩ := hv
      have ihr := ih (cltActApply s a) hv
      cases a with
      | enqueue p =>
          simp only [cltReceived, cltRun, cltEnqueued, List.filterMap_cons,
            List.nil_append] at ihr ⊢
          rw [ihr]
          simp [cltActApply]
      | putErr e =>
          simp only [cltReceived, cltRun, cltEnqueued, List.filterMap_cons,
            List.nil_append] at ihr ⊢
          rw [ihr]
          simp [cltActApply]
      | recvFrame =>
          rw [cltActEnabled] at he
          rcases hq : s.incomingC with _ | ⟨p, tl⟩
          · rw [hq] at he; simp at he
          · simp only [cltReceived, cltRun, cltEnqueued, List.filterMap_cons,
              hq, List.singleton_append] at ihr ⊢
            rw [List.cons_append, ihr]
            simp [cltActApply, hq]
      | recvErr =>
          simp only [cltReceived, cltRun, cltEnqueued, List.filterMap_cons,
            List.nil_append] at ihr ⊢
          rw [ihr]
          simp [cltActApply]

theorem srvActApply_done (s : SrvStreamState) (a : SrvAct) :
    (srvActApply s a).done = (s.done || isCloseAct a) := by
  cases a <;> simp [srvActApply, isCloseAct, sshStreamClose]
  by_cases h : s.done = true <;> simp [h]

theorem closeFires_eq (acts : List SrvAct) :
    ∀ s : SrvStreamState,
    closeFires s acts =
      if s.done then 0 else if acts.any isCloseAct then 1 else 0 := by
  induction acts with
  | nil => intro s; simp [closeFires]
  | cons a r ih =>
      intro s
      cases a with
      | closeAct =>
          rw [closeFires, ih (srvActApply s SrvAct.closeAct), srvActApply_done]
          by_cases h : s.done = true <;> simp [isCloseAct, h]
      | enqueue p =>
          rw [closeFires, ih (srvActApply s (SrvAct.enqueue p)), srvActApply_done]
          case x_3 => simp
          by_cases h : s.done = true <;> simp [isCloseAct, h]
      | recvFrame =>
          rw [closeFires, ih (srvActApply s SrvAct.recvFrame), srvActApply_done]
          case x_3 => simp
          by_cases h : s.done = true <;> simp [isCloseAct, h]
      | recvEOF =>
          rw [closeFires, ih (srvActApply s SrvAct.recvEOF), srvActApply_done]
          case x_3 => simp
          by_cases h : s.done = true <;> simp [isCloseAct, h]

theorem srvRun_done_mono (acts : List SrvAct) :
    ∀ s : SrvStreamState, s.done = true → (srvRun s acts).done = true := by
  induction acts with
  | nil => intro s h; simpa [srvRun] using h
  | cons a r ih =>
      intro s h
      rw [srvRun]
      exact ih _ (by rw [srvActApply_done, h]; simp)

theorem proxySSH_trace_cases (fips : Bool) (env : SSHServerEnv) :
    (proxySSH fips env).1 = [] ∨
    (∃ h po cl e, env.dial = Except.error e ∧
        (proxySSH fips env).1 = [SrvEvent.dialHostCalled h po cl]) ∨
    (∃ h po cl c, env.dial = Except.ok c ∧
        ((proxySSH fips env).1 =
            [SrvEvent.dialHostCalled h po cl,
             SrvEvent.detailsSent { fipsEnabled := fips }] ∨
         (proxySSH fips env).1 =
            [SrvEvent.dialHostCalled h po cl,
             SrvEvent.detailsSent { fipsEnabled := fips },
             SrvEvent.proxyStarted])) := by
  obtain ⟨pi, ck, fr, sp, dl, sd, pc⟩ := env
  cases pi with
  | none => exact Or.inl (by simp [proxySSH])
  | some a =>
    cases ck with
    | error e => exact Or.inl (by simp [proxySSH])
    | ok ch =>
      cases fr with
      | error e => exact Or.inl (by simp [proxySSH])
      | ok req =>
        cases hdt : req.dialTarget with
        | none => exact Or.inl (by simp [proxySSH, hdt])
        | some t =>
          cases hsp : sp t.hostPort with
          | none => exact Or.inl (by simp [proxySSH, hdt, hsp])
          | some pr =>
            obtain ⟨host1, port1⟩ := pr
            cases dl with
            | error e =>
                refine Or.inr (Or.inl ⟨host1, port1, t.cluster, e, rfl, ?_⟩)
                simp [proxySSH, hdt, hsp, newReadWriter]
            | ok c =>
                refine Or.inr (Or.inr ⟨host1, port1, t.cluster, c, rfl, ?_⟩)
                cases sd with
                | some e =>
                    exact Or.inl (by simp [proxySSH, hdt, hsp, newReadWriter])
                | none =>
                    exact Or.inr (by simp [proxySSH, hdt, hsp, newReadWriter])

/-- C1: in a host (ProxySSH) session the server emits the cluster-details
response only after the external Dialer has successfully returned a
destination connection — whenever a details event is in the trace, the
dial succeeded and the dial event immediately precedes the details event —
and in every execution where dialing fails no details event ever appears;
on the client side, DialHost blocks on its single initial receive and
returns a receive failure as an error rather than a connection. -/
theorem c1_details_gated_by_dial :
    (∀ (fips : Bool) (env : SSHServerEnv) (d : ClusterDetails),
        SrvEvent.detailsSent d ∈ (proxySSH fips env).1 →
        ∃ (c : DestConn) (h po cl : String) (rest : List SrvEvent),
          env.dial = Except.ok c ∧
          (proxySSH fips env).1 =
            SrvEvent.dialHostCalled h po cl :: SrvEvent.detailsSent d :: rest) ∧
    (∀ (fips : Bool) (env : SSHServerEnv) (e : GoError),
        env.dial = Except.error e →
        ∀ d : ClusterDetails, SrvEvent.detailsSent d ∉ (proxySSH fips env).1) ∧
    (∀ (hostport : String) (src : Option Addr) (env : DialHostEnv) (e : GoError),
        env.openStream = none → env.sendTarget = none →
        env.firstRecv = Except.error e →
        dialHost hostport src env = Except.error e) := by
  refine ⟨?_, ?_, ?_⟩
  · intro fips env d hmem
    rcases proxySSH_trace_cases fips env with htr | ⟨h, po, cl, e, hdl, htr⟩ |
        ⟨h, po, cl, c, hdl, htr | htr⟩
    · rw [htr] at hmem; simp at hmem
    · rw [htr] at hmem; simp at hmem
    · rw [htr] at hmem
      simp at hmem
      subst hmem
      exact ⟨c, h, po, cl, [], hdl, htr⟩
    · rw [htr] at hmem
      simp at hmem
      subst hmem
      exact ⟨c, h, po, cl, [SrvEvent.proxyStarted], hdl, htr⟩
  · intro fips env e hdl d hmem
    rcases proxySSH_trace_cases fips env with htr | ⟨h, po, cl, e2, hdl2, htr⟩ |
        ⟨h, po, cl, c, hdl2, htr | htr⟩
    · rw [htr] at hmem; simp at hmem
    · rw [htr] at hmem; simp at hmem
    · simp [hdl] at hdl2
    · simp [hdl] at hdl2
  · intro hostport src env e h1 h2 h3
    simp [dialHost, h1, h2, h3]

/-- Witness for C1 at a concrete all-success server environment and a
concrete failing client receive. -/
theorem c1_witness :
    (∃ (c : DestConn) (h po cl : String) (rest : List SrvEvent),
        envAllOk.dial = Except.ok c ∧
        (proxySSH true envAllOk).1 =
          SrvEvent.dialHostCalled h po cl ::
            SrvEvent.detailsSent ⟨true⟩ :: rest) ∧
    dialHost "node.example.com:3022" none envRecvFail =
      Except.error (GoError.notImplemented "not implemented") :=
  ⟨c1_details_gated_by_dial.1 true envAllOk ⟨true⟩ (by decide),
   c1_details_gated_by_dial.2.2 "node.example.com:3022" none envRecvFail
     (GoError.notImplemented "not implemented") rfl rfl rfl⟩

/-- C3: a ProxySSH peer lacking usable authorization never reaches the
Dialer: with no peer on the context, or with a failing access-checker
resolution, the handler returns the error of that step with an empty
event trace, so no dialHostCalled event (and hence no Dialer invocation)
ever occurs. -/
theorem c3_auth_before_dial :
    (∀ (fips : Bool) (env : SSHServerEnv),
        env.peerInfo = none →
        proxySSH fips env =
          ([], some (GoError.badParameter "unable to find peer"))) ∧
    (∀ (fips : Bool) (env : SSHServerEnv) (a : Addr) (e : GoError),
        env.peerInfo = some a → env.checker = Except.error e →
        proxySSH fips env = ([], some e)) := by
  constructor
  · intro fips env h
    simp [proxySSH, h]
  · intro fips env a e h1 h2
    simp [proxySSH, h1, h2]

/-- Witness for C3 at concrete environments missing the peer and failing
the access check. -/
theorem c3_witness :
    proxySSH true envNoPeer =
      ([], some (GoError.badParameter "unable to find peer")) ∧
    proxySSH true envAuthFail =
      ([], some (GoError.accessDenied "client is not authenticated")) :=
  ⟨c3_auth_before_dial.1 true envNoPeer rfl,
   c3_auth_before_dial.2 true envAuthFail ⟨"tcp", "10.0.0.1:55555"⟩
     (GoError.accessDenied "client is not authenticated") rfl rfl⟩

/-- C8: a first ProxySSH message without a dial target, or whose hostport
does not split into host and port, makes the handler return a
BadParameter error with an empty event trace — before any Dialer call and
before any data exchange, with no retry. -/
theorem c8_param_errors_before_dial :
    (∀ (fips : Bool) (env : SSHServerEnv) (a : Addr) (ch : AccessChecker)
        (req : ProxySSHRequestMsg),
        env.peerInfo = some a → env.checker = Except.ok ch →
        env.firstRecv = Except.ok req → req.dialTarget = none →
        proxySSH fips env =
          ([], some (GoError.badParameter
            "first frame must contain a dial target"))) ∧
    (∀ (fips : Bool) (env : SSHServerEnv) (a : Addr) (ch : AccessChecker)
        (req : ProxySSHRequestMsg) (t : TargetHost),
        env.peerInfo = some a → env.checker = Except.ok ch →
        env.firstRecv = Except.ok req → req.dialTarget = some t →
        env.splitHostPort t.hostPort = none →
        proxySSH fips env =
          ([], some (GoError.badParameter
            "dial target contains an invalid hostport"))) := by
  constructor
  · intro fips env a ch req h1 h2 h3 h4
    simp [proxySSH, h1, h2, h3, h4]
  · intro fips env a ch req t h1 h2 h3 h4 h5
    simp [proxySSH, h1, h2, h3, h4, h5]

/-- Witness for C8 at concrete environments with a missing dial target and
a hostport that does not split. -/
theorem c8_witness :
    proxySSH true envNoTarget =
      ([], some (GoError.badParameter
        "first frame must contain a dial target")) ∧
    proxySSH true envBadHostPort =
      ([], some (GoError.badParameter
        "dial target contains an invalid hostport")) :=
  ⟨c8_param_errors_before_dial.1 true envNoTarget ⟨"tcp", "10.0.0.1:55555"⟩
     ⟨0⟩ { dialTarget := none } rfl rfl rfl rfl,
   c8_param_errors_before_dial.2 true envBadHostPort ⟨"tcp", "10.0.0.1:55555"⟩
     ⟨0⟩ { dialTarget := some ⟨"garbage", "root-cluster"⟩ }
     ⟨"garbage", "root-cluster"⟩ rfl rfl rfl rfl (by decide)⟩

/-- C4: once the first cluster message is sent successfully, DialCluster
returns a connection and no error, regardless of how the peer later
terminates the stream; when the peer terminates with an error before
sending data, the first read on that connection yields zero bytes and a
classified connection-problem error instead of the raw peer error. -/
theorem c4_dial_cluster_lazy_failure :
    ∀ (src : Option Addr) (env : DialClusterEnv) (p : Addr) (e : GoError),
      env.openStream = none → env.sendFirst = none → env.peerInfo = some p →
      e ≠ GoError.ioEOF →
      dialCluster src env = Except.ok { localAddr := src, remoteAddr := p } ∧
      (connFirstRead (clientClusterRecv (Except.error e))).1 = 0 ∧
      (connFirstRead (clientClusterRecv (Except.error e))).2 =
        some (GoError.connectionProblem e.describe) ∧
      (GoError.connectionProblem e.describe).isConnectionProblem = true ∧
      (e.isConnectionProblem = false →
        GoError.connectionProblem e.describe ≠ e) := by
  intro src env p e h1 h2 h3 he
  refine ⟨?_, ?_, ?_, rfl, ?_⟩
  · simp [dialCluster, h1, h2, h3, newReadWriter]
  · cases e <;> rfl
  · cases e <;> first | exact absurd rfl he | rfl
  · intro hcp
    cases e <;> simp_all [GoError.isConnectionProblem]

/-- Witness for C4 at a concrete environment and the concrete peer error
of the repository test (a NotImplemented termination). -/
theorem c4_witness :
    dialCluster none envClusterOk =
      Except.ok { localAddr := none,
                  remoteAddr := ⟨"tcp", "127.0.0.1:3080"⟩ } ∧
    (connFirstRead (clientClusterRecv
        (Except.error (GoError.notImplemented "not implemented")))).1 = 0 ∧
    (connFirstRead (clientClusterRecv
        (Except.error (GoError.notImplemented "not implemented")))).2 =
      some (GoError.connectionProblem "not implemented") ∧
    (GoError.connectionProblem "not implemented").isConnectionProblem = true ∧
    ((GoError.notImplemented "not implemented").isConnectionProblem = false →
      GoError.connectionProblem "not implemented" ≠
        GoError.notImplemented "not implemented") :=
  c4_dial_cluster_lazy_failure none envClusterOk ⟨"tcp", "127.0.0.1:3080"⟩
    (GoError.notImplemented "not implemented") rfl rfl rfl (by decide)

/-- C5 counterexample: on the client side with no keyring supplied, an
agent-tagged payload is not enqueued onto the agent virtual stream queue
(the dispatcher skips it before reaching the enqueue), so the claim that
every agent-tagged payload is enqueued onto the agent queue fails. -/
theorem c5_counterexample :
    (clientDispatch false [some (RespFrame.agent ⟨[1]⟩)] none).agentQ = [] ∧
    (clientDispatch false [some (RespFrame.agent ⟨[1]⟩)] none).agentQ ≠
      [[1]] := by
  constructor <;> decide

/-- C5 amended: both dispatchers route by frame tag — ssh payloads to the
ssh queue in arrival order, agent payloads to the agent queue (on the
client only when a keyring was supplied; otherwise agent frames are
skipped) — and an envelope carrying no recognized tag is skipped without
effect and never terminates the loop: the stream closes exactly when the
terminal receive outcome is an error. -/
theorem c5_amended_tag_routing :
    (∀ (msgs : List (Option ReqFrame)) (term : Option GoError),
        (serverDispatch msgs term).sshQ = msgs.filterMap reqSshPayload ∧
        (serverDispatch msgs term).agentQ = msgs.filterMap reqAgentPayload ∧
        serverDispatch (none :: msgs) term = serverDispatch msgs term ∧
        (serverDispatch msgs term).sshClosed = term.isSome ∧
        (serverDispatch msgs term).agentClosed = term.isSome) ∧
    (∀ (keyring : Bool) (msgs : List (Option RespFrame))
        (term : Option GoError),
        (clientDispatch keyring msgs term).sshQ =
          msgs.filterMap respSshPayload ∧
        (clientDispatch keyring msgs term).agentQ =
          (if keyring then msgs.filterMap respAgentPayload else []) ∧
        clientDispatch keyring (none :: msgs) term =
          clientDispatch keyring msgs term ∧
        (clientDispatch keyring msgs term).sshConnClosed = term.isSome) := by
  constructor
  · intro msgs term
    refine ⟨?_, ?_, ?_, ?_, ?_⟩ <;>
      simp [serverDispatch, srvLoop_eq, srvDispatchInit,
        reqSshPayload, reqAgentPayload]
  · intro keyring msgs term
    refine ⟨?_, ?_, ?_, ?_⟩ <;>
      simp [clientDispatch, cltLoop_eq, cltDispatchInit,
        respSshPayload, respAgentPayload, isAgentMsg]

/-- C6: when the client dispatcher observes a terminal receive error, the
error value is delivered only into the ssh virtual stream error channel
(where the next Recv of the user-visible connection returns it); nothing
is ever delivered into the agent stream error channel, and the agent
stream is instead torn down by closing its backing reader/writer. -/
theorem c6_terminal_error_ssh_only :
    (∀ (keyring : Bool) (msgs : List (Option RespFrame)) (e : GoError),
        (clientDispatch keyring msgs (some e)).sshErrC = some e ∧
        (clientDispatch keyring msgs (some e)).agentRWClosed = true ∧
        (clientDispatch keyring msgs (some e)).sshConnClosed = true) ∧
    (∀ (keyring : Bool) (msgs : List (Option RespFrame))
        (term : Option GoError),
        (clientDispatch keyring msgs term).agentErrC = none) := by
  constructor
  · intro keyring msgs e
    refine ⟨?_, ?_, ?_⟩ <;>
      simp [clientDispatch, cltLoop_eq, cltDispatchInit]
  · intro keyring msgs term
    simp [clientDispatch, cltLoop_eq, cltDispatchInit]

/-- C7: the client starts the agent-serving responder at most once per
session, and exactly when a keyring was supplied and at least one
agent-tagged frame arrived before the terminal error; with no keyring or
no agent frame it is never started, and later agent frames never start it
again. -/
theorem c7_serve_agent_once_lazy :
    ∀ (keyring : Bool) (msgs : List (Option RespFrame))
      (term : Option GoError),
      (clientDispatch keyring msgs term).serveCount ≤ 1 ∧
      (clientDispatch keyring msgs term).serveCount =
        (if keyring && msgs.any isAgentMsg then 1 else 0) := by
  intro keyring msgs term
  constructor
  · rw [clientDispatch, cltLoop_eq]
    simp [cltDispatchInit]
    split <;> simp
  · rw [clientDispatch, cltLoop_eq]
    simp [cltDispatchInit]

/-- C2 at the failing input: per Go select semantics the terminal error
and a buffered frame can be simultaneously ready, and Recv may take the
error branch first; in this valid execution the dispatcher enqueued the
hello frame (blocking, never dropping), the terminal error was posted,
and the consumer Recv returned the error while the frame was still
queued — the frame is never returned by any receive of the execution. -/
theorem c2_frame_lost_at_termination :
    cltRunValid ⟨[], none⟩
      [CltAct.enqueue helloPayload, CltAct.putErr oversizedErr,
       CltAct.recvErr] = true ∧
    cltEnqueued
      [CltAct.enqueue helloPayload, CltAct.putErr oversizedErr,
       CltAct.recvErr] = [helloPayload] ∧
    cltReceived ⟨[], none⟩
      [CltAct.enqueue helloPayload, CltAct.putErr oversizedErr,
       CltAct.recvErr] = [] ∧
    (cltRun ⟨[], none⟩
      [CltAct.enqueue helloPayload, CltAct.putErr oversizedErr,
       CltAct.recvErr]).incomingC = [helloPayload] := by
  refine ⟨?_, ?_, ?_, ?_⟩ <;> decide

/-- C9 counterexample: after Close has fired the done signal, a Recv whose
select finds the buffered channel ready may return a queued frame rather
than io.EOF — this execution is valid and its post-Close receive returns
the frame, refuting the claim that every Recv after the first Close
returns an end-of-stream indication. -/
theorem c9_counterexample :
    srvRunValid ⟨[], false⟩
      [SrvAct.enqueue [5], SrvAct.closeAct, SrvAct.recvFrame] = true ∧
    (srvRun ⟨[], false⟩ [SrvAct.enqueue [5], SrvAct.closeAct]).done = true ∧
    srvReceived ⟨[], false⟩
      [SrvAct.enqueue [5], SrvAct.closeAct, SrvAct.recvFrame] = [[5]] := by
  refine ⟨?_, ?_, ?_⟩ <;> decide

/-- C9 amended: Close is idempotent — every Close call returns nil and
leaves the done signal fired, and across any action sequence the signal
fires exactly once (and zero times if never closed); the signal never
unfires; and once the done signal is fired and the queue is drained, the
only receive branch the select can take is the one returning io.EOF (a
Recv may still return a frame while frames remain queued). -/
theorem c9_amended_close_idempotent :
    (∀ (s : SrvStreamState) (acts : List SrvAct),
        closeFires s acts =
          if s.done then 0 else if acts.any isCloseAct then 1 else 0) ∧
    (∀ s : SrvStreamState,
        (sshStreamClose s).2 = none ∧ (sshStreamClose s).1.done = true) ∧
    (∀ (s : SrvStreamState) (acts : List SrvAct),
        s.done = true → (srvRun s acts).done = true) ∧
    (∀ s : SrvStreamState, s.done = true → s.incomingC = [] →
        srvActEnabled s SrvAct.recvFrame = false ∧
        srvActEnabled s SrvAct.recvEOF = true) := by
  refine ⟨fun s acts => closeFires_eq acts s, ?_,
    fun s acts => srvRun_done_mono acts s, ?_⟩
  · intro s
    by_cases h : s.done = true <;> simp [sshStreamClose, h]
  · intro s h1 h2
    simp [srvActEnabled, h1, h2]

/-- Witness for C9 at concrete states: three sequential Close calls fire
the signal exactly once, Close returns nil, the fired signal persists,
and a drained closed stream permits only the io.EOF receive branch. -/
theorem c9_witness :
    closeFires ⟨[], false⟩
      [SrvAct.closeAct, SrvAct.closeAct, SrvAct.closeAct] = 1 ∧
    (sshStreamClose ⟨[], true⟩).2 = none ∧
    (srvRun ⟨[], true⟩ [SrvAct.enqueue [1]]).done = true ∧
    (srvActEnabled ⟨[], true⟩ SrvAct.recvFrame = false ∧
     srvActEnabled ⟨[], true⟩ SrvAct.recvEOF = true) :=
  ⟨(c9_amended_close_idempotent.1 ⟨[], false⟩
      [SrvAct.closeAct, SrvAct.closeAct, SrvAct.closeAct]).trans (by decide),
   (c9_amended_close_idempotent.2.1 ⟨[], true⟩).1,
   c9_amended_close_idempotent.2.2.1 ⟨[], true⟩ [SrvAct.enqueue [1]] rfl,
   c9_amended_close_idempotent.2.2.2 ⟨[], true⟩ rfl rfl⟩

/-- C10: on a cluster session, both the client-side and the server-side
stream-source Recv treat an envelope with an absent frame as a fatal
BadParameter error terminating the read path — unlike the host-session
dispatcher, for which an unrecognized envelope is skipped with no effect. -/
theorem c10_nil_frame_fatal :
    (∀ m : ProxyClusterResponseMsg, m.frame = none →
        clientClusterRecv (Except.ok m) =
          Except.error (GoError.badParameter "received invalid frame")) ∧
    (∀ m : ProxyClusterRequestMsg, m.frame = none →
        serverClusterRecv (Except.ok m) =
          Except.error (GoError.badParameter "received invalid frame")) ∧
    (∀ (msgs : List (Option ReqFrame)) (term : Option GoError),
        serverDispatch (none :: msgs) term = serverDispatch msgs term) := by
  refine ⟨?_, ?_, ?_⟩
  · intro m h
    simp [clientClusterRecv, h]
  · intro m h
    simp [serverClusterRecv, h]
  · intro msgs term
    simp [serverDispatch, srvLoop_eq, srvDispatchInit,
      reqSshPayload, reqAgentPayload]

/-- Witness for C10 at concrete frameless envelopes on both sides. -/
theorem c10_witness :
    clientClusterRecv (Except.ok { frame := none }) =
      Except.error (GoError.badParameter "received invalid frame") ∧
    serverClusterRecv (Except.ok { cluster := "", frame := none }) =
      Except.error (GoError.badParameter "received invalid frame") ∧
    serverDispatch [none] none = serverDispatch [] none :=
  ⟨c10_nil_frame_fatal.1 { frame := none } rfl,
   c10_nil_frame_fatal.2.1 { cluster := "", frame := none } rfl,
   c10_nil_frame_fatal.2.2 [] none⟩

end Transportv1
